import Mathlib

/-!
# XDMFFile: a verification development

Shallow embedding of the parts of `dolfin/io/XDMFFile.h` that the checked
properties talk about.  The header defines two functions inline
(`xdmf_format_str` and the `std::vector<bool>` specialisation of
`add_data_item`) and declares every other operation.  The declarations are
embedded as enumerations of the overloads; operations whose bodies live
outside the header are taken as parameters or modelled from the
specification, and each such definition says so in its doc comment.
-/

set_option autoImplicit false

namespace dolfin

/-! ## Data model -/

/-- The class `XDMFFile`, by its data members: the MPI communicator, the HDF5
data file (`std::unique_ptr<HDF5File>`, empty when no store is open), the
cached file name, the counter for time series and the XML document.  The
classes `HDF5File` and `pugi::xml_document` are only forward-declared in the
header, hence the type parameters. -/
structure XDMFFile (Comm Doc Store : Type) where
  _mpi_comm : Comm
  _hdf5_file : Option Store
  _filename : String
  _counter : Nat
  _xml_doc : Doc

namespace XDMFFile

/-- File encoding type: `enum class Encoding {HDF5, ASCII}`. -/
inductive Encoding where
  | HDF5
  | ASCII
  deriving DecidableEq, Repr, Fintype

/-- Generate the XDMF format string based on the Encoding enumeration:
`(encoding == XDMFFile::Encoding::HDF5) ? "HDF" : "XML"`. -/
def xdmf_format_str (encoding : Encoding) : String :=
  if encoding = Encoding.HDF5 then "HDF" else "XML"

/-! ## The public interface -/

/-- The kinds of object the public `write` and `read` overloads take. -/
inductive ObjectKind where
  | Mesh
  | Function
  | MeshFunction
  | MeshValueCollection
  | PointCloud
  deriving DecidableEq, Repr, Fintype

/-- The four field kinds of the field writer and reader. -/
def field_kinds : List ObjectKind :=
  [ObjectKind.Function, ObjectKind.MeshFunction, ObjectKind.MeshValueCollection,
   ObjectKind.PointCloud]

/-- The thirteen public `write` overloads, in the order of the header. -/
inductive WriteOverload where
  /-- Declared as `void write(const Mesh& mesh, Encoding encoding=Encoding::HDF5)` -/
  | mesh
  /-- Declared as `void write(const Function& u, Encoding encoding=Encoding::HDF5)` -/
  | function
  /-- Declared as `void write(const Function& u, double t, Encoding encoding=Encoding::HDF5)` -/
  | function_t
  /-- Declared as `void write(const MeshFunction<bool>&, Encoding encoding=Encoding::HDF5)` -/
  | meshfunction_bool
  /-- Declared as `void write(const MeshFunction<int>&, Encoding encoding=Encoding::HDF5)` -/
  | meshfunction_int
  /-- Declared as `void write(const MeshFunction<std::size_t>&, Encoding encoding=Encoding::HDF5)` -/
  | meshfunction_size_t
  /-- Declared as `void write(const MeshFunction<double>&, Encoding encoding=Encoding::HDF5)` -/
  | meshfunction_double
  /-- Declared as `void write(const MeshValueCollection<bool>&, Encoding encoding=Encoding::HDF5)` -/
  | mvc_bool
  /-- Declared as `void write(const MeshValueCollection<int>&, Encoding encoding=Encoding::HDF5)` -/
  | mvc_int
  /-- Declared as `void write(const MeshValueCollection<std::size_t>&, Encoding encoding=Encoding::HDF5)` -/
  | mvc_size_t
  /-- Declared as `void write(const MeshValueCollection<double>&, Encoding encoding=Encoding::HDF5)` -/
  | mvc_double
  /-- Declared as `void write(const std::vector<Point>& points, Encoding encoding=Encoding::HDF5)` -/
  | points
  /-- Declared as `void write(const std::vector<Point>& points, const std::vector<double>& values,
  Encoding encoding=Encoding::HDF5)` -/
  | points_values
  deriving DecidableEq, Repr, Fintype

/-- The nine public `read` overloads, in the order of the header. -/
inductive ReadOverload where
  /-- Declared as `void read(Mesh& mesh) const` -/
  | mesh
  /-- Declared as `void read(MeshFunction<bool>& meshfunction, std::string name="")` -/
  | meshfunction_bool
  /-- Declared as `void read(MeshFunction<int>& meshfunction, std::string name="")` -/
  | meshfunction_int
  /-- Declared as `void read(MeshFunction<std::size_t>& meshfunction, std::string name="")` -/
  | meshfunction_size_t
  /-- Declared as `void read(MeshFunction<double>& meshfunction, std::string name="")` -/
  | meshfunction_double
  /-- Declared as `void read(MeshValueCollection<bool>& mvc, std::string name="")` -/
  | mvc_bool
  /-- Declared as `void read(MeshValueCollection<int>& mvc, std::string name="")` -/
  | mvc_int
  /-- Declared as `void read(MeshValueCollection<std::size_t>& mvc, std::string name="")` -/
  | mvc_size_t
  /-- Declared as `void read(MeshValueCollection<double>& mvc, std::string name="")` -/
  | mvc_double
  deriving DecidableEq, Repr, Fintype

/-- The kind of object a `write` overload takes as its first argument. -/
def WriteOverload.object : WriteOverload → ObjectKind
  | WriteOverload.mesh => ObjectKind.Mesh
  | WriteOverload.function => ObjectKind.Function
  | WriteOverload.function_t => ObjectKind.Function
  | WriteOverload.meshfunction_bool => ObjectKind.MeshFunction
  | WriteOverload.meshfunction_int => ObjectKind.MeshFunction
  | WriteOverload.meshfunction_size_t => ObjectKind.MeshFunction
  | WriteOverload.meshfunction_double => ObjectKind.MeshFunction
  | WriteOverload.mvc_bool => ObjectKind.MeshValueCollection
  | WriteOverload.mvc_int => ObjectKind.MeshValueCollection
  | WriteOverload.mvc_size_t => ObjectKind.MeshValueCollection
  | WriteOverload.mvc_double => ObjectKind.MeshValueCollection
  | WriteOverload.points => ObjectKind.PointCloud
  | WriteOverload.points_values => ObjectKind.PointCloud

/-- The default argument of the `encoding` parameter of a `write` overload.
Only `hid_t`, the forward declaration of `HDF5File` and the member
`_hdf5_file` stand under `#ifdef HAS_HDF5` in the header; the default
arguments do not, so the build flag `has_hdf5` is not consulted. -/
def WriteOverload.default_encoding (_has_hdf5 : Bool) : WriteOverload → Encoding
  | WriteOverload.mesh => Encoding.HDF5
  | WriteOverload.function => Encoding.HDF5
  | WriteOverload.function_t => Encoding.HDF5
  | WriteOverload.meshfunction_bool => Encoding.HDF5
  | WriteOverload.meshfunction_int => Encoding.HDF5
  | WriteOverload.meshfunction_size_t => Encoding.HDF5
  | WriteOverload.meshfunction_double => Encoding.HDF5
  | WriteOverload.mvc_bool => Encoding.HDF5
  | WriteOverload.mvc_int => Encoding.HDF5
  | WriteOverload.mvc_size_t => Encoding.HDF5
  | WriteOverload.mvc_double => Encoding.HDF5
  | WriteOverload.points => Encoding.HDF5
  | WriteOverload.points_values => Encoding.HDF5

/-- The kind of object a `read` overload fills. -/
def ReadOverload.object : ReadOverload → ObjectKind
  | ReadOverload.mesh => ObjectKind.Mesh
  | ReadOverload.meshfunction_bool => ObjectKind.MeshFunction
  | ReadOverload.meshfunction_int => ObjectKind.MeshFunction
  | ReadOverload.meshfunction_size_t => ObjectKind.MeshFunction
  | ReadOverload.meshfunction_double => ObjectKind.MeshFunction
  | ReadOverload.mvc_bool => ObjectKind.MeshValueCollection
  | ReadOverload.mvc_int => ObjectKind.MeshValueCollection
  | ReadOverload.mvc_size_t => ObjectKind.MeshValueCollection
  | ReadOverload.mvc_double => ObjectKind.MeshValueCollection

/-- The default argument of the `name` parameter of a `read` overload, `none`
for the overload that has no such parameter (`read(Mesh&)`). -/
def ReadOverload.default_name : ReadOverload → Option String
  | ReadOverload.mesh => none
  | ReadOverload.meshfunction_bool => some ""
  | ReadOverload.meshfunction_int => some ""
  | ReadOverload.meshfunction_size_t => some ""
  | ReadOverload.meshfunction_double => some ""
  | ReadOverload.mvc_bool => some ""
  | ReadOverload.mvc_int => some ""
  | ReadOverload.mvc_size_t => some ""
  | ReadOverload.mvc_double => some ""

/-- The public interface has a `write` overload for objects of kind `k`; every
`write` overload takes an `encoding` (see `WriteOverload.default_encoding`). -/
def provides_write (k : ObjectKind) : Prop :=
  ∃ w : WriteOverload, w.object = k

/-- The public interface has a `read` overload for objects of kind `k` that
takes an optional name. -/
def provides_read (k : ObjectKind) : Prop :=
  ∃ r : ReadOverload, r.object = k ∧ r.default_name.isSome = true

instance (k : ObjectKind) : Decidable (provides_write k) := by
  unfold provides_write
  infer_instance

instance (k : ObjectKind) : Decidable (provides_read k) := by
  unfold provides_read
  infer_instance

/-- A call of a public `write` overload as the compiler resolves it: an
omitted `encoding` argument is replaced by the overload's default argument.
The bodies of the overloads are not in the header and are passed as `body`. -/
def write_call {σ ρ : Type} (has_hdf5 : Bool) (body : WriteOverload → Encoding → σ → ρ)
    (o : WriteOverload) (encoding : Option Encoding) (s : σ) : ρ :=
  match encoding with
  | some e => body o e s
  | none => body o (o.default_encoding has_hdf5) s

/-! ## The `std::vector<bool>` specialisation of `add_data_item` -/

/-- The C++ conversion `(int)b` of a `bool`: `true` is 1 and `false` is 0. -/
def bool_to_int (b : Bool) : Int :=
  if b then 1 else 0

/-- The copy loop `for (std::size_t i = 0; i < x.size(); ++i) x_int[i] = (int)x[i];`
started at index `i` with the current contents of `x_int`. -/
def copy_loop (x : Array Bool) (i : Nat) (x_int : Array Int) : Array Int :=
  if h : i < x.size then
    copy_loop x (i + 1) (x_int.setD i (bool_to_int x[i]))
  else
    x_int
termination_by x.size - i

/-- The temporary of the specialisation: `std::vector<int> x_int(x.size());`
(value-initialised, so all zero) followed by the copy loop. -/
def bool_x_int (x : Array Bool) : Array Int :=
  copy_loop x 0 (mkArray x.size 0)

/-- The specialisation of `add_data_item` for `std::vector<bool>`: copy to
`int` and call the general `add_data_item` (passed as `general`) with every
other argument as received. -/
def add_data_item_bool {Comm Node Res : Type}
    (general : Comm → Node → Int → String → Array Int → List Int → String → Res)
    (comm : Comm) (xml_node : Node) (h5_id : Int) (h5_path : String)
    (x : Array Bool) (shape : List Int) (number_type : String) : Res :=
  general comm xml_node h5_id h5_path (bool_x_int x) shape number_type

/-- Modelled from the spec: the read side of a boolean array ("on read
reinterpret retrieved integers as booleans") is not in the header; this is
the C++ conversion of an `int` to `bool`, non-zero meaning true. -/
def int_to_bool (v : Int) : Bool :=
  v != 0

/-- Modelled from the spec: reinterpret every retrieved integer as a boolean. -/
def read_back_bools (x_int : Array Int) : Array Bool :=
  x_int.map int_to_bool

/-! ## The general `add_data_item` (data-item codec) -/

/-- Modelled from the spec: the XML node class is only forward-declared.  What
a DataItem node holds besides its attributes: a reference into the store
(file name and in-store path) or the values as inline text. -/
inductive DataItemContent where
  | reference (file : String) (h5_path : String)
  | text (values : String)
  deriving DecidableEq, Repr

/-- Modelled from the spec: a DataItem node, by what the codec records in it:
the shape, the numeric type and the content. -/
structure DataItem where
  dimensions : List Int
  number_type : String
  content : DataItemContent
  deriving DecidableEq, Repr

/-- Modelled from the spec: the binary store behind a handle (`hid_t` is an
`int` when HDF5 is compiled out): its file name and the arrays written so
far, each under its path and with its shape. -/
structure H5Store (α : Type) where
  filename : String
  datasets : List (String × Array α × List Int)

/-- Modelled from the spec: what `add_data_item` writes to, the XML node (by
the DataItem children it has) and the store that the handle `h5_id` stands
for. -/
structure DataTarget (α : Type) where
  xml_node : List DataItem
  h5_store : H5Store α

/-- Modelled from the spec: the values of an array "as whitespace-separated
text", each value printed by `fmt`. -/
def values_text {α : Type} (fmt : α → String) (x : Array α) : String :=
  String.intercalate " " (x.toList.map fmt)

/-- Modelled from the spec: the body of the general template
`add_data_item(comm, xml_node, h5_id, h5_path, x, dimensions, number_type)` is
not in the header.  Following the comment on its declaration ("If HDF5
is open (h5_id > 0) the data is written to the HDF5 file with the path
h5_path. Otherwise, data is written to the XML node and h5_path is ignored")
and the codec's write contract in the spec: in both cases a DataItem child
recording shape and numeric type is added to the node. -/
def add_data_item {Comm α : Type} (fmt : α → String) (_comm : Comm)
    (target : DataTarget α) (h5_id : Int) (h5_path : String) (x : Array α)
    (dimensions : List Int) (number_type : String) : DataTarget α :=
  if 0 < h5_id then
    { xml_node := target.xml_node ++
        [{ dimensions := dimensions, number_type := number_type,
           content := DataItemContent.reference target.h5_store.filename h5_path }],
      h5_store := { target.h5_store with
        datasets := target.h5_store.datasets ++ [(h5_path, x, dimensions)] } }
  else
    { xml_node := target.xml_node ++
        [{ dimensions := dimensions, number_type := number_type,
           content := DataItemContent.text (values_text fmt x) }],
      h5_store := target.h5_store }

/-! ## Encoding check of the public write operations -/

/-- Modelled from the spec: the error taxonomy (no error type is declared in
the header). -/
inductive XDMFError where
  | ConfigurationError
  | FormatError
  | DataUnavailableError
  | NotFoundError
  | DimensionMismatchError
  deriving DecidableEq, Repr

/-- Modelled from the spec: an encoding is supported in a build unless it is
the binary one and binary support is compiled out (`HAS_HDF5` undefined). -/
def encoding_supported (has_hdf5 : Bool) (encoding : Encoding) : Bool :=
  match encoding with
  | Encoding.HDF5 => has_hdf5
  | Encoding.ASCII => true

/-- Modelled from the spec: the body of `check_encoding(encoding)` is not in
the header.  "Check whether the requested encoding is supported", failing
with a `ConfigurationError` otherwise. -/
def check_encoding (has_hdf5 : Bool) (encoding : Encoding) : Except XDMFError Unit :=
  if encoding_supported has_hdf5 encoding then Except.ok ()
  else Except.error XDMFError.ConfigurationError

/-- Modelled from the spec: the bodies of the public `write` overloads are not
in the header.  "Every public write call validates the requested encoding
... before delegating, failing fast with a ConfigurationError otherwise": the
check comes first, and the rest of the overload is the parameter `delegate`,
which returns the new state of the file and its outcome. -/
def write {Comm Doc Store : Type} (has_hdf5 : Bool)
    (delegate : WriteOverload → Encoding → XDMFFile Comm Doc Store →
      XDMFFile Comm Doc Store × Except XDMFError Unit)
    (o : WriteOverload) (encoding : Encoding) (file : XDMFFile Comm Doc Store) :
    XDMFFile Comm Doc Store × Except XDMFError Unit :=
  match check_encoding has_hdf5 encoding with
  | Except.error e => (file, Except.error e)
  | Except.ok () => delegate o encoding file

/-! ## Distributed entity resolver -/

end XDMFFile

/-- Modelled from the spec: the class `Mesh` is only forward-declared in the
header.  This is what the resolver asks of the process-local part of a
partitioned mesh: the rank of the process holding it, the topological
dimension, for every dimension the global index of each local entity (by
local index), and the shared-entity bookkeeping: for every dimension and
local index, the ranks of the other processes that hold the same entity. -/
structure Mesh where
  rank : Nat
  tdim : Nat
  global_indices : Nat → List Nat
  shared_entities : Nat → Nat → List Nat

namespace XDMFFile

/-- Modelled from the spec: the body of `compute_nonlocal_entities(mesh,
cell_dim)` is not in the header.  "Calculate set of entities of dimension
cell_dim which are duplicated on other processes and should not be output on
this process": none for the cells (dimension `tdim`); for a lower dimension
"the process with the lower rank is the owner and keeps the entity, all other
sharing processes add it to the suppression set". -/
def compute_nonlocal_entities (mesh : Mesh) (cell_dim : Nat) : Finset Nat :=
  if cell_dim = mesh.tdim then ∅
  else (Finset.range (mesh.global_indices cell_dim).length).filter
    (fun i => (mesh.shared_entities cell_dim i).any (fun q => decide (q < mesh.rank)) = true)

/-- The entities of dimension `d` that a process keeps (writes): its local
entities that are not in the suppression set. -/
def kept_entities (mesh : Mesh) (d : Nat) : Finset Nat :=
  (Finset.range (mesh.global_indices d).length) \ compute_nonlocal_entities mesh d

/-- The sharers recorded for the local entity `i` of dimension `d` on the
process of rank `p` are right: each is another process of the group that
holds an entity with the same global index. -/
def sharers_sound (n : Nat) (parts : Nat → Mesh) (d p i : Nat) : Prop :=
  ∀ q, q ∈ (parts p).shared_entities d i →
    q < n ∧ q ≠ p ∧ ((parts p).global_indices d).getD i 0 ∈ (parts q).global_indices d

/-- Every other process that holds an entity with the same global index as the
local entity `i` of dimension `d` on the process of rank `p` is recorded as a
sharer of it. -/
def sharers_complete (n : Nat) (parts : Nat → Mesh) (d p i : Nat) : Prop :=
  ∀ q, q < n → q ≠ p →
    ((parts p).global_indices d).getD i 0 ∈ (parts q).global_indices d →
      q ∈ (parts p).shared_entities d i

instance (n : Nat) (parts : Nat → Mesh) (d p i : Nat) :
    Decidable (sharers_sound n parts d p i) := by
  unfold sharers_sound
  infer_instance

instance (n : Nat) (parts : Nat → Mesh) (d p i : Nat) :
    Decidable (sharers_complete n parts d p i) := by
  unfold sharers_complete
  infer_instance

/-- The shared-entity bookkeeping of a mesh partitioned over `n` processes
(`parts p` is the part of rank `p`) is right in dimension `d`: every part knows
its rank, and the sharers recorded for each of its entities are exactly the
other processes that hold an entity with the same global index. -/
def consistent_partition (n : Nat) (parts : Nat → Mesh) (d : Nat) : Prop :=
  ∀ p, p < n → (parts p).rank = p ∧
    ∀ i, i < ((parts p).global_indices d).length →
      sharers_sound n parts d p i ∧ sharers_complete n parts d p i

instance (n : Nat) (parts : Nat → Mesh) (d : Nat) :
    Decidable (consistent_partition n parts d) := by
  unfold consistent_partition
  infer_instance

/-- The process of rank `p` keeps a local entity of dimension `d` whose global
index is `g`. -/
def keeps (parts : Nat → Mesh) (d : Nat) (p : Nat) (g : Nat) : Prop :=
  ∃ i, i ∈ kept_entities (parts p) d ∧ ((parts p).global_indices d)[i]? = some g

/-! ## Value width of a Function -/

end XDMFFile

/-- Modelled from the spec: the class `Function` is only forward-declared in
the header.  A field by its value rank (0 scalar, 1 vector, 2 tensor), its
value size and the value at each point, each of `value_size` components.
The component type `α` stands for `double`; no arithmetic is done on it. -/
structure Function (α : Type) where
  value_rank : Nat
  value_size : Nat
  values : List (List α)

namespace XDMFFile

/-- Modelled from the spec: the body of `get_padded_width(u)` is not in the
header.  "Get data width - normally the same as u.value_size(), but expand
for 2D vector/tensor because XDMF presents everything as 3D". -/
def get_padded_width {α : Type} (u : Function α) : Nat :=
  let width := u.value_size
  let rank := u.value_rank
  if rank = 1 ∧ width = 2 then 3
  else if rank = 2 ∧ width = 4 then 9
  else width

/-- Modelled from the spec: pad the value at one point to `padded` components,
"leaving extra components zero". -/
def pad_value {α : Type} [Zero α] (padded : Nat) (v : List α) : List α :=
  v ++ List.replicate (padded - v.length) 0

/-- Modelled from the spec: the body of `get_point_data_values(u)` is not in
the header.  The values as a flattened 2D array whose innermost dimension is
the padded width; for a vector the extra component comes last and is zero
(the spec does not say where the zero components of a padded tensor go). -/
def get_point_data_values {α : Type} [Zero α] (u : Function α) : List α :=
  (u.values.map (pad_value (get_padded_width u))).flatten

/-- The rows of a flattened 2D array of innermost dimension `padded`. -/
def rows {α : Type} (padded : Nat) (data : List α) : List (List α) :=
  if padded = 0 ∨ data.length = 0 then []
  else data.take padded :: rows padded (data.drop padded)
termination_by data.length
decreasing_by
  have h1 : 0 < padded := by omega
  have h2 : 0 < data.length := by omega
  simp only [List.length_drop]
  omega

/-- Modelled from the spec: reading a padded value array back "and dropping
the third component": keep the first `width` components of every row. -/
def drop_padding {α : Type} (width padded : Nat) (data : List α) : List (List α) :=
  (rows padded data).map (List.take width)

/-! ## Lifetime of the file object -/

/-- The one-argument constructor
`XDMFFile(const std::string filename) : XDMFFile(MPI_COMM_WORLD, filename) {}`.
The two-argument constructor, whose body is not in the header, is the
parameter `construct`; `MPI_COMM_WORLD` is a constant of the MPI library and
a parameter too. -/
def construct_filename {Comm State : Type} (construct : Comm → String → State)
    (MPI_COMM_WORLD : Comm) (filename : String) : State :=
  construct MPI_COMM_WORLD filename

/-- Modelled from the spec: the body of `close()` is not in the header.
"This closes any open HDF5 files. In ASCII mode ... close() has no effect":
the store handle is released and nothing else changes. -/
def close {Comm Doc Store : Type} (file : XDMFFile Comm Doc Store) :
    XDMFFile Comm Doc Store :=
  { file with _hdf5_file := none }

/-! ## Time series and the write counter -/

/-- The arguments of one call of the general integer `add_data_item`. -/
structure GeneralCall (Comm Node : Type) where
  comm : Comm
  xml_node : Node
  h5_id : Int
  h5_path : String
  x : Array Int
  shape : List Int
  number_type : String

/-- A general `add_data_item` that returns the data array it is handed, so
that `add_data_item_bool data_argument comm xml_node h5_id h5_path x shape
number_type` is the integer array that the specialisation writes for `x`. -/
def data_argument {Comm Node : Type} (_comm : Comm) (_xml_node : Node) (_h5_id : Int)
    (_h5_path : String) (x : Array Int) (_shape : List Int) (_number_type : String) :
    Array Int :=
  x

/-- A general `add_data_item` that only records the call made to it. -/
def record_call {Comm Node : Type} (comm : Comm) (xml_node : Node) (h5_id : Int)
    (h5_path : String) (x : Array Int) (shape : List Int) (number_type : String) :
    List (GeneralCall Comm Node) :=
  [{ comm := comm, xml_node := xml_node, h5_id := h5_id, h5_path := h5_path, x := x,
     shape := shape, number_type := number_type }]

/-- The copy loop of the specialisation once more, recording at every
iteration the index `i` at which `x[i]` is read and `x_int[i]` is written,
together with the size of `x_int` at that moment. -/
def copy_loop_accesses (x : Array Bool) (i : Nat) (x_int : Array Int) : List (Nat × Nat) :=
  if h : i < x.size then
    (i, x_int.size) :: copy_loop_accesses x (i + 1) (x_int.setD i (bool_to_int x[i]))
  else
    []
termination_by x.size - i

/-- The accesses of the whole specialisation: the loop from index 0 on the
temporary `std::vector<int> x_int(x.size())`. -/
def bool_x_int_accesses (x : Array Bool) : List (Nat × Nat) :=
  copy_loop_accesses x 0 (mkArray x.size 0)

/-- The copy loop with checked accesses: `none` as soon as `x_int[i]` would
be written out of bounds (reading `x[i]` is in bounds by the loop test). -/
def copy_loop_checked (x : Array Bool) (i : Nat) (x_int : Array Int) : Option (Array Int) :=
  if h : i < x.size then
    if i < x_int.size then
      copy_loop_checked x (i + 1) (x_int.setD i (bool_to_int x[i]))
    else
      none
  else
    some x_int
termination_by x.size - i

/-! ## Small concrete inputs -/

/-- A triangle mesh of two cells over the global vertices 0 to 3, split over
two processes: rank 0 holds the vertices 0, 1, 2 and rank 1 the vertices
2, 1, 3 (in local order), so the vertices 1 and 2 are shared. -/
def example_partition : Nat → Mesh
  | 0 =>
    { rank := 0, tdim := 2,
      global_indices := fun d => if d = 0 then [0, 1, 2] else [],
      shared_entities := fun d i => if d = 0 ∧ (i = 1 ∨ i = 2) then [1] else [] }
  | 1 =>
    { rank := 1, tdim := 2,
      global_indices := fun d => if d = 0 then [2, 1, 3] else [],
      shared_entities := fun d i => if d = 0 ∧ (i = 0 ∨ i = 1) then [0] else [] }
  | _ =>
    { rank := 0, tdim := 2, global_indices := fun _ => [], shared_entities := fun _ _ => [] }

/-- A 2-D vector field over two points, with values (1, 2) and (3, 4). -/
def example_vector_field : Function Int :=
  { value_rank := 1, value_size := 2, values := [[1, 2], [3, 4]] }

/-- A file object with four timestamped grids written and no store open. -/
def example_file : XDMFFile Unit (List String) Unit :=
  { _mpi_comm := (), _hdf5_file := none, _filename := "u.xdmf", _counter := 4,
    _xml_doc := ["grid_0", "grid_1", "grid_2", "grid_3"] }

end XDMFFile

end dolfin

/-! ## MeTiS compatibility status codes (`scotch/metis.h`) -/

namespace metis

/-- The return status of the MeTiS compatibility routines:
`typedef enum { METIS_OK = 1, METIS_ERROR_INPUT = -2, METIS_ERROR_MEMORY = -3,
METIS_ERROR = -4 } rstatus_et;`. -/
inductive rstatus_et where
  | METIS_OK
  | METIS_ERROR_INPUT
  | METIS_ERROR_MEMORY
  | METIS_ERROR
  deriving DecidableEq, Repr, Fintype

/-- The integer value of a status code, as given in the enumeration. -/
def rstatus_et.value : rstatus_et → Int
  | rstatus_et.METIS_OK => 1
  | rstatus_et.METIS_ERROR_INPUT => -2
  | rstatus_et.METIS_ERROR_MEMORY => -3
  | rstatus_et.METIS_ERROR => -4

end metis

/-! ## Lemmas -/

namespace dolfin.XDMFFile

theorem copy_loop_size (x : Array Bool) (i : Nat) (x_int : Array Int) :
    (copy_loop x i x_int).size = x_int.size := by
  generalize h : x.size - i = n
  induction n generalizing i x_int with
  | zero =>
    unfold copy_loop
    have : ¬ i < x.size := by omega
    simp [this]
  | succ n ih =>
    unfold copy_loop
    have hi : i < x.size := by omega
    simp only [hi, dite_true]
    rw [ih (i + 1) _ (by omega)]
    simp

theorem copy_loop_getD (x : Array Bool) (i : Nat) (x_int : Array Int)
    (hs : x_int.size = x.size) (j : Nat) (hj : j < x.size) :
    (copy_loop x i x_int).getD j 0 =
      if i ≤ j then bool_to_int (x.getD j false) else x_int.getD j 0 := by
  generalize h : x.size - i = n
  induction n generalizing i x_int with
  | zero =>
    unfold copy_loop
    have h1 : ¬ i < x.size := by omega
    have h2 : ¬ i ≤ j := by omega
    simp [h1, h2]
  | succ n ih =>
    unfold copy_loop
    have hi : i < x.size := by omega
    simp only [hi, dite_true]
    rw [ih (i + 1) _ (by simp [hs]) (by omega)]
    by_cases hij : i = j
    · subst hij
      have h3 : i < x_int.size := by omega
      simp [Array.getD, hi, h3]
    · by_cases hlt : i < j
      · have h4 : i + 1 ≤ j := by omega
        have h5 : i ≤ j := by omega
        simp [h4, h5]
      · have h4 : ¬ i + 1 ≤ j := by omega
        have h5 : ¬ i ≤ j := by omega
        have h6 : j < x_int.size := by omega
        have h7 : i < x_int.size := by omega
        simp [h4, h5, Array.getD, h6, Array.setD, h7, Array.getElem_set, hij]

theorem bool_x_int_size (x : Array Bool) : (bool_x_int x).size = x.size := by
  simp [bool_x_int, copy_loop_size]

theorem bool_x_int_getD (x : Array Bool) (j : Nat) (hj : j < x.size) :
    (bool_x_int x).getD j 0 = bool_to_int (x.getD j false) := by
  unfold bool_x_int
  rw [copy_loop_getD x 0 _ (by simp) j hj]
  simp

theorem bool_x_int_eq_map (x : Array Bool) : bool_x_int x = x.map bool_to_int := by
  apply Array.ext
  · simp [bool_x_int_size]
  · intro j h1 h2
    have hj : j < x.size := by simpa [bool_x_int_size] using h1
    have h := bool_x_int_getD x j hj
    simp only [Array.getD, h1, hj, dite_true] at h
    simpa using h

theorem int_to_bool_bool_to_int (b : Bool) : int_to_bool (bool_to_int b) = b := by
  cases b <;> rfl

theorem read_back_bools_bool_x_int (x : Array Bool) :
    read_back_bools (bool_x_int x) = x := by
  rw [bool_x_int_eq_map]
  apply Array.ext
  · simp [read_back_bools]
  · intro j h1 h2
    simp [read_back_bools, int_to_bool_bool_to_int]

end dolfin.XDMFFile


namespace dolfin.XDMFFile

theorem mem_compute_nonlocal_entities (mesh : Mesh) (d : Nat) (hd : d ≠ mesh.tdim) (i : Nat) :
    i ∈ compute_nonlocal_entities mesh d ↔
      i < (mesh.global_indices d).length ∧ ∃ q, q ∈ mesh.shared_entities d i ∧ q < mesh.rank := by
  simp [compute_nonlocal_entities, hd]

theorem compute_nonlocal_entities_cells (mesh : Mesh) :
    compute_nonlocal_entities mesh mesh.tdim = ∅ := by
  simp [compute_nonlocal_entities]

theorem mem_kept_entities (mesh : Mesh) (d : Nat) (i : Nat) :
    i ∈ kept_entities mesh d ↔
      i < (mesh.global_indices d).length ∧ i ∉ compute_nonlocal_entities mesh d := by
  simp [kept_entities]

theorem keeps_mem (parts : Nat → Mesh) (d p g : Nat) (h : keeps parts d p g) :
    g ∈ (parts p).global_indices d := by
  obtain ⟨i, _, hi⟩ := h
  exact List.getElem?_mem hi

/-- The lowest-ranked process holding an entity keeps it. -/
theorem lowest_holder_keeps (n : Nat) (parts : Nat → Mesh) (d : Nat)
    (hc : consistent_partition n parts d) (hd : ∀ p, p < n → d < (parts p).tdim)
    (g p : Nat) (hp : p < n) (hg : g ∈ (parts p).global_indices d)
    (hmin : ∀ q, q < p → g ∉ (parts q).global_indices d) :
    keeps parts d p g := by
  obtain ⟨i, hi, hgi⟩ := List.getElem_of_mem hg
  refine ⟨i, ?_, ?_⟩
  · rw [mem_kept_entities]
    refine ⟨hi, ?_⟩
    rw [mem_compute_nonlocal_entities _ _ (Nat.ne_of_lt (hd p hp))]
    rintro ⟨_, q, hq, hlt⟩
    obtain ⟨hrank, hbook⟩ := hc p hp
    obtain ⟨_, _, hmem⟩ := (hbook i hi).1 q hq
    rw [hrank] at hlt
    apply hmin q hlt
    have : ((parts p).global_indices d).getD i 0 = g := by
      simp [List.getD, List.getElem?_eq_getElem hi, hgi]
    rw [this] at hmem
    exact hmem
  · rw [List.getElem?_eq_getElem hi, hgi]

/-- A process does not keep an entity that a lower-ranked process holds. -/
theorem not_keeps_of_lower_holder (n : Nat) (parts : Nat → Mesh) (d : Nat)
    (hc : consistent_partition n parts d) (hd : ∀ p, p < n → d < (parts p).tdim)
    (g p q : Nat) (hp : p < n) (hq : q < n) (hpq : p < q)
    (hg : g ∈ (parts p).global_indices d) : ¬ keeps parts d q g := by
  rintro ⟨j, hj, hgj⟩
  rw [mem_kept_entities] at hj
  obtain ⟨hjlt, hjn⟩ := hj
  apply hjn
  rw [mem_compute_nonlocal_entities _ _ (Nat.ne_of_lt (hd q hq))]
  refine ⟨hjlt, p, ?_, ?_⟩
  · obtain ⟨_, hbook⟩ := hc q hq
    apply (hbook j hjlt).2 p hp (Nat.ne_of_lt hpq)
    have : ((parts q).global_indices d).getD j 0 = g := by
      simp [List.getD, hgj]
    rw [this]
    exact hg
  · rw [(hc q hq).1]
    exact hpq

end dolfin.XDMFFile

namespace dolfin.XDMFFile

theorem rows_nil {α : Type} (padded : Nat) : rows padded ([] : List α) = [] := by
  rw [rows]
  simp

theorem rows_append {α : Type} (padded : Nat) (hp : 0 < padded) (row rest : List α)
    (hlen : row.length = padded) : rows padded (row ++ rest) = row :: rows padded rest := by
  rw [rows]
  have h1 : ¬ (padded = 0 ∨ (row ++ rest).length = 0) := by
    simp only [List.length_append]
    omega
  rw [if_neg h1, List.take_left' hlen, List.drop_left' hlen]

theorem pad_value_two {α : Type} [Zero α] (v : List α) (hv : v.length = 2) :
    pad_value 3 v = v ++ [0] := by
  simp [pad_value, hv]

theorem padded_length {α : Type} [Zero α] (values : List (List α))
    (h : ∀ v, v ∈ values → v.length = 2) :
    ((values.map (pad_value 3)).flatten).length = 3 * values.length := by
  induction values with
  | nil => simp
  | cons v vs ih =>
    have hv : v.length = 2 := h v (List.mem_cons_self v vs)
    have ih2 := ih (fun w hw => h w (List.mem_cons_of_mem v hw))
    simp only [List.map_cons, List.flatten_cons, List.length_append, List.length_cons, ih2,
      pad_value_two v hv, hv, List.length_nil]
    omega

theorem padded_third_zero {α : Type} [Zero α] (values : List (List α))
    (h : ∀ v, v ∈ values → v.length = 2) (i : Nat) (hi : i < values.length) :
    ((values.map (pad_value 3)).flatten)[3 * i + 2]? = some 0 := by
  induction values generalizing i with
  | nil => simp at hi
  | cons v vs ih =>
    have hv : v.length = 2 := h v (List.mem_cons_self v vs)
    have hlen : (v ++ [(0 : α)]).length = 3 := by simp [hv]
    simp only [List.map_cons, List.flatten_cons, pad_value_two v hv]
    cases i with
    | zero =>
      rw [List.getElem?_append_left (by omega)]
      rw [List.getElem?_append_right (by omega)]
      simp [hv]
    | succ j =>
      rw [List.getElem?_append_right (by omega)]
      have hj : j < vs.length := by simpa using hi
      have hidx : 3 * (j + 1) + 2 - (v ++ [(0 : α)]).length = 3 * j + 2 := by omega
      rw [hidx]
      exact ih (fun w hw => h w (List.mem_cons_of_mem v hw)) j hj

theorem padded_component {α : Type} [Zero α] (values : List (List α))
    (h : ∀ v, v ∈ values → v.length = 2) (i : Nat) (hi : i < values.length)
    (c : Nat) (hc : c < 2) :
    ((values.map (pad_value 3)).flatten)[3 * i + c]? = (values.getD i [])[c]? := by
  induction values generalizing i with
  | nil => simp at hi
  | cons v vs ih =>
    have hv : v.length = 2 := h v (List.mem_cons_self v vs)
    have hlen : (v ++ [(0 : α)]).length = 3 := by simp [hv]
    simp only [List.map_cons, List.flatten_cons, pad_value_two v hv]
    cases i with
    | zero =>
      rw [List.getElem?_append_left (by omega)]
      rw [List.getElem?_append_left (by omega)]
      simp
    | succ j =>
      rw [List.getElem?_append_right (by omega)]
      have hj : j < vs.length := by simpa using hi
      have hidx : 3 * (j + 1) + c - (v ++ [(0 : α)]).length = 3 * j + c := by omega
      rw [hidx, ih (fun w hw => h w (List.mem_cons_of_mem v hw)) j hj]
      simp

theorem drop_padding_padded {α : Type} [Zero α] (values : List (List α))
    (h : ∀ v, v ∈ values → v.length = 2) :
    drop_padding 2 3 ((values.map (pad_value 3)).flatten) = values := by
  induction values with
  | nil => simp [drop_padding, rows_nil]
  | cons v vs ih =>
    have hv : v.length = 2 := h v (List.mem_cons_self v vs)
    have ih2 := ih (fun w hw => h w (List.mem_cons_of_mem v hw))
    unfold drop_padding at ih2 ⊢
    simp only [List.map_cons, List.flatten_cons, pad_value_two v hv]
    rw [rows_append 3 (by omega) _ _ (by simp [hv]), List.map_cons, ih2,
      List.take_left' hv]

theorem get_padded_width_vector {α : Type} (u : Function α)
    (hr : u.value_rank = 1) (hs : u.value_size = 2) : get_padded_width u = 3 := by
  simp [get_padded_width, hr, hs]

end dolfin.XDMFFile

namespace dolfin.XDMFFile

theorem copy_loop_accesses_eq (x : Array Bool) (i : Nat) (x_int : Array Int)
    (hs : x_int.size = x.size) :
    copy_loop_accesses x i x_int = (List.range' i (x.size - i)).map (fun j => (j, x.size)) := by
  generalize h : x.size - i = n
  induction n generalizing i x_int with
  | zero =>
    unfold copy_loop_accesses
    have h1 : ¬ i < x.size := by omega
    simp [h1]
  | succ n ih =>
    unfold copy_loop_accesses
    have hi : i < x.size := by omega
    simp only [hi, dite_true]
    rw [ih (i + 1) _ (by simp [hs]) (by omega), hs]
    simp [List.range'_succ]

theorem copy_loop_checked_eq (x : Array Bool) (i : Nat) (x_int : Array Int)
    (hs : x_int.size = x.size) :
    copy_loop_checked x i x_int = some (copy_loop x i x_int) := by
  generalize h : x.size - i = n
  induction n generalizing i x_int with
  | zero =>
    unfold copy_loop_checked copy_loop
    have h1 : ¬ i < x.size := by omega
    simp [h1]
  | succ n ih =>
    unfold copy_loop_checked copy_loop
    have hi : i < x.size := by omega
    have hi2 : i < x_int.size := by omega
    simp only [hi, hi2, dite_true, if_true]
    exact ih (i + 1) _ (by simp [hs]) (by omega)

end dolfin.XDMFFile

/-! ## Checked properties -/

open dolfin dolfin.XDMFFile

/-- C1: for every boolean vector `x` the bool specialisation of `add_data_item`
calls the general integer `add_data_item` on an integer array of the same
length as `x` whose `i`-th element is 1 when `x[i]` is true and 0 when it is
false. -/
theorem C1_bool_copy_is_zero_one {Comm Node Res : Type}
    (general : Comm → Node → Int → String → Array Int → List Int → String → Res)
    (comm : Comm) (xml_node : Node) (h5_id : Int) (h5_path : String)
    (x : Array Bool) (shape : List Int) (number_type : String) :
    add_data_item_bool general comm xml_node h5_id h5_path x shape number_type
        = general comm xml_node h5_id h5_path (bool_x_int x) shape number_type
      ∧ (bool_x_int x).size = x.size
      ∧ ∀ (i : Nat) (hi : i < x.size),
          (bool_x_int x)[i]? = some (if x[i] = true then 1 else 0) := by
  refine ⟨rfl, bool_x_int_size x, ?_⟩
  intro i hi
  rw [bool_x_int_eq_map]
  rw [Array.getElem?_eq_getElem (by simpa using hi)]
  simp [bool_to_int]

/-- Witness of C1 on the vector `[true, false, true]`, with a general
`add_data_item` that returns the array it is handed. -/
theorem C1_bool_copy_is_zero_one_witness :
    (1 : Nat) < (#[true, false, true] : Array Bool).size
      ∧ (bool_x_int #[true, false, true])[1]? = some 0 :=
  ⟨by decide,
   (C1_bool_copy_is_zero_one (fun (_ : Unit) (_ : Unit) _ _ (d : Array Int) _ _ => d)
      () () 0 "" #[true, false, true] [3] "Int").2.2 1 (by decide)⟩

/-- C2: boolean round trip. For every boolean vector `x` of length N, the
integer array that the bool specialisation of `add_data_item` writes (hands
to the general `add_data_item`), with every integer reinterpreted as a
boolean (non-zero means true), gives back a vector of length N equal to `x`
at every position; so two different boolean vectors are never written as the
same integer array. -/
theorem C2_bool_round_trip {Comm Node Res : Type}
    (general : Comm → Node → Int → String → Array Int → List Int → String → Res)
    (comm : Comm) (xml_node : Node) (h5_id : Int) (h5_path : String)
    (x y : Array Bool) (shape : List Int) (number_type : String) :
    add_data_item_bool general comm xml_node h5_id h5_path x shape number_type
        = general comm xml_node h5_id h5_path
            (add_data_item_bool data_argument comm xml_node h5_id h5_path x shape number_type)
            shape number_type
      ∧ read_back_bools
          (add_data_item_bool data_argument comm xml_node h5_id h5_path x shape number_type)
          = x
      ∧ (read_back_bools
          (add_data_item_bool data_argument comm xml_node h5_id h5_path x shape
            number_type)).size = x.size
      ∧ (∀ (i : Nat) (hi : i < x.size),
          (read_back_bools
            (add_data_item_bool data_argument comm xml_node h5_id h5_path x shape
              number_type))[i]? = some x[i])
      ∧ (x ≠ y →
          add_data_item_bool data_argument comm xml_node h5_id h5_path x shape number_type
            ≠ add_data_item_bool data_argument comm xml_node h5_id h5_path y shape
                number_type) := by
  have hx : add_data_item_bool data_argument comm xml_node h5_id h5_path x shape number_type
      = bool_x_int x := rfl
  have hy : add_data_item_bool data_argument comm xml_node h5_id h5_path y shape number_type
      = bool_x_int y := rfl
  have h := read_back_bools_bool_x_int x
  rw [hx, hy]
  refine ⟨rfl, h, by rw [h], ?_, ?_⟩
  · intro i hi
    rw [h]
    exact Array.getElem?_eq_getElem hi
  · intro hne heq
    apply hne
    rw [← h, ← read_back_bools_bool_x_int y, heq]

/-- Witness of C2 on the two vectors `[true]` and `[false]`, written with the
handle 0 under the path `/f`. -/
theorem C2_bool_round_trip_witness :
    (#[true] : Array Bool) ≠ #[false]
      ∧ add_data_item_bool data_argument () () 0 "/f" #[true] [1] "Int"
          ≠ add_data_item_bool data_argument () () 0 "/f" #[false] [1] "Int" :=
  ⟨by decide,
   (C2_bool_round_trip (data_argument : Unit → Unit → Int → String → Array Int → List Int →
      String → Array Int) () () 0 "/f" #[true] #[false] [1] "Int").2.2.2.2 (by decide)⟩

/-- C3: `add_data_item` chooses the encoding from the store handle alone.  If
`h5_id > 0` the data is written to the store under `h5_path` and the node
records a reference to it; otherwise the values are written as text in the
node, the store is untouched and `h5_path` has no influence.  In both cases
the new DataItem records the shape and the numeric type. -/
theorem C3_add_data_item_by_handle {Comm α : Type} (fmt : α → String) (comm : Comm)
    (target : DataTarget α) (h5_id : Int) (h5_path : String) (x : Array α)
    (dimensions : List Int) (number_type : String) :
    (0 < h5_id →
        (add_data_item fmt comm target h5_id h5_path x dimensions number_type).h5_store.datasets
            = target.h5_store.datasets ++ [(h5_path, x, dimensions)]
        ∧ (add_data_item fmt comm target h5_id h5_path x dimensions number_type).xml_node
            = target.xml_node ++ [DataItem.mk dimensions number_type
                (DataItemContent.reference target.h5_store.filename h5_path)])
      ∧ (h5_id ≤ 0 →
        (add_data_item fmt comm target h5_id h5_path x dimensions number_type).h5_store
            = target.h5_store
        ∧ (add_data_item fmt comm target h5_id h5_path x dimensions number_type).xml_node
            = target.xml_node ++ [DataItem.mk dimensions number_type
                (DataItemContent.text (values_text fmt x))]
        ∧ ∀ other_path : String,
            add_data_item fmt comm target h5_id other_path x dimensions number_type
              = add_data_item fmt comm target h5_id h5_path x dimensions number_type)
      ∧ (∃ item : DataItem,
          (add_data_item fmt comm target h5_id h5_path x dimensions number_type).xml_node
            = target.xml_node ++ [item]
          ∧ item.dimensions = dimensions ∧ item.number_type = number_type) := by
  refine ⟨?_, ?_, ?_⟩
  · intro h
    simp [add_data_item, h]
  · intro h
    have h1 : ¬ 0 < h5_id := by omega
    simp [add_data_item, h1]
  · by_cases h : 0 < h5_id
    · exact ⟨DataItem.mk dimensions number_type
          (DataItemContent.reference target.h5_store.filename h5_path),
        by simp [add_data_item, h], rfl, rfl⟩
    · exact ⟨DataItem.mk dimensions number_type (DataItemContent.text (values_text fmt x)),
        by simp [add_data_item, h], rfl, rfl⟩

/-- Witness of C3: the integer array `[7, 8]` of shape `[2]` written with
the open handle 1 and with the closed handle 0. -/
theorem C3_add_data_item_by_handle_witness :
    ((0 : Int) < 1
      ∧ (add_data_item (fun v : Int => toString v) ()
            { xml_node := [], h5_store := { filename := "u.h5", datasets := [] } }
            1 "/Mesh/0" #[7, 8] [2] "Int").h5_store.datasets = [] ++ [("/Mesh/0", #[7, 8], [2])])
      ∧ ((0 : Int) ≤ 0
        ∧ (add_data_item (fun v : Int => toString v) ()
            { xml_node := [], h5_store := { filename := "u.h5", datasets := [] } }
            0 "/Mesh/0" #[7, 8] [2] "Int").h5_store
              = { filename := "u.h5", datasets := [] }) :=
  ⟨⟨by decide,
    ((C3_add_data_item_by_handle (fun v : Int => toString v) ()
        { xml_node := [], h5_store := { filename := "u.h5", datasets := [] } }
        1 "/Mesh/0" #[7, 8] [2] "Int").1 (by decide)).1⟩,
   ⟨by decide,
    ((C3_add_data_item_by_handle (fun v : Int => toString v) ()
        { xml_node := [], h5_store := { filename := "u.h5", datasets := [] } }
        0 "/Mesh/0" #[7, 8] [2] "Int").2.1 (by decide)).1⟩⟩

/-- C4: `xdmf_format_str` is total, returns "HDF" for `Encoding::HDF5` and
"XML" for `Encoding::ASCII`, so it returns "HDF" exactly on `HDF5`. -/
theorem C4_xdmf_format_str (e : Encoding) :
    xdmf_format_str Encoding.HDF5 = "HDF"
      ∧ xdmf_format_str Encoding.ASCII = "XML"
      ∧ (xdmf_format_str e = "HDF" ↔ e = Encoding.HDF5) := by
  cases e <;> simp [xdmf_format_str]

/-- C5: for every public `write` overload, a call that omits the encoding
argument is the same call with `Encoding::HDF5`, and this default is the same
whether or not `HAS_HDF5` is defined. -/
theorem C5_default_encoding_is_hdf5 {σ ρ : Type} (has_hdf5 : Bool)
    (body : WriteOverload → Encoding → σ → ρ) (o : WriteOverload) (s : σ) :
    write_call has_hdf5 body o none s = write_call has_hdf5 body o (some Encoding.HDF5) s
      ∧ o.default_encoding has_hdf5 = Encoding.HDF5
      ∧ o.default_encoding true = o.default_encoding false := by
  cases o <;> exact ⟨rfl, rfl, rfl⟩

/-- C6: a public write checks the requested encoding first.  If the encoding
is not supported in the build (HDF5 requested with binary support compiled
out) the call fails with a `ConfigurationError` and the file object (XML
document, write counter, store) is returned unchanged, whatever the rest of
the operation would do; if it is supported the check succeeds and the
operation goes on. -/
theorem C6_write_checks_encoding_first {Comm Doc Store : Type} (has_hdf5 : Bool)
    (delegate : WriteOverload → Encoding → XDMFFile Comm Doc Store →
      XDMFFile Comm Doc Store × Except XDMFError Unit)
    (o : WriteOverload) (encoding : Encoding) (file : XDMFFile Comm Doc Store) :
    (encoding_supported has_hdf5 encoding = false ↔
        (encoding = Encoding.HDF5 ∧ has_hdf5 = false))
      ∧ (encoding_supported has_hdf5 encoding = false →
          check_encoding has_hdf5 encoding = Except.error XDMFError.ConfigurationError
          ∧ write has_hdf5 delegate o encoding file
              = (file, Except.error XDMFError.ConfigurationError)
          ∧ (write has_hdf5 delegate o encoding file).1._xml_doc = file._xml_doc
          ∧ (write has_hdf5 delegate o encoding file).1._counter = file._counter
          ∧ (write has_hdf5 delegate o encoding file).1._hdf5_file = file._hdf5_file)
      ∧ (encoding_supported has_hdf5 encoding = true →
          check_encoding has_hdf5 encoding = Except.ok ()
          ∧ write has_hdf5 delegate o encoding file = delegate o encoding file) := by
  refine ⟨?_, ?_, ?_⟩
  · cases encoding <;> cases has_hdf5 <;> simp [encoding_supported]
  · intro h
    simp [write, check_encoding, h]
  · intro h
    simp [write, check_encoding, h]

/-- Witness of C6: a timestamped write with HDF5 in a build without HDF5, where
the rest of the operation would bump the counter, and an ASCII write in the
same build. -/
theorem C6_write_checks_encoding_first_witness :
    (encoding_supported false Encoding.HDF5 = false
      ∧ write false
          (fun _ _ (f : XDMFFile Unit (List String) Unit) =>
            ({ f with _counter := f._counter + 1 }, Except.ok ()))
          WriteOverload.function_t Encoding.HDF5
          { _mpi_comm := (), _hdf5_file := none, _filename := "u.xdmf", _counter := 4,
            _xml_doc := [] }
        = ({ _mpi_comm := (), _hdf5_file := none, _filename := "u.xdmf", _counter := 4,
             _xml_doc := [] }, Except.error XDMFError.ConfigurationError))
      ∧ (encoding_supported false Encoding.ASCII = true
        ∧ check_encoding false Encoding.ASCII = Except.ok ()) :=
  ⟨⟨by decide,
    ((C6_write_checks_encoding_first false
        (fun _ _ (f : XDMFFile Unit (List String) Unit) =>
          ({ f with _counter := f._counter + 1 }, Except.ok ()))
        WriteOverload.function_t Encoding.HDF5
        { _mpi_comm := (), _hdf5_file := none, _filename := "u.xdmf", _counter := 4,
          _xml_doc := [] }).2.1 (by decide)).2.1⟩,
   ⟨by decide,
    ((C6_write_checks_encoding_first false
        (fun _ _ (f : XDMFFile Unit (List String) Unit) =>
          ({ f with _counter := f._counter + 1 }, Except.ok ()))
        WriteOverload.mesh Encoding.ASCII
        { _mpi_comm := (), _hdf5_file := none, _filename := "u.xdmf", _counter := 4,
          _xml_doc := [] }).2.2 (by decide)).1⟩⟩

/-- C7, as stated, fails: a `Function` is one of the four field kinds and can
be written, but the public interface has no `read` overload for it. -/
theorem C7_function_has_no_read :
    ObjectKind.Function ∈ field_kinds
      ∧ ¬ (provides_write ObjectKind.Function ∧ provides_read ObjectKind.Function) := by
  decide

/-- C7, amended: each of the four field kinds has a public `write` overload
taking an encoding; a public `read` overload taking an optional name exists
for exactly two of them, MeshFunction and MeshValueCollection. -/
theorem C7_write_all_read_two (k : ObjectKind) (hk : k ∈ field_kinds) :
    (∃ w : WriteOverload, w.object = k ∧ ∀ b : Bool, w.default_encoding b = Encoding.HDF5)
      ∧ provides_write k
      ∧ (provides_read k ↔
          (k = ObjectKind.MeshFunction ∨ k = ObjectKind.MeshValueCollection)) := by
  revert k
  decide

/-- Witness of the amended C7 on the kind MeshFunction. -/
theorem C7_write_all_read_two_witness :
    ObjectKind.MeshFunction ∈ field_kinds
      ∧ provides_write ObjectKind.MeshFunction ∧ provides_read ObjectKind.MeshFunction :=
  ⟨by decide,
   (C7_write_all_read_two ObjectKind.MeshFunction (by decide)).2.1,
   (C7_write_all_read_two ObjectKind.MeshFunction (by decide)).2.2.2 (Or.inl rfl)⟩

/-- C9: ownership partition.  For a mesh partitioned over `n` processes with
consistent shared-entity bookkeeping and a dimension `d` below the topological
dimension, the entities that the processes keep (those not in
`compute_nonlocal_entities`) cover exactly the global entities of dimension
`d`, and no global entity is kept by two processes; for `d = tdim` the
suppression set is empty on every process. -/
theorem C9_ownership_partition (n : Nat) (parts : Nat → Mesh) (d : Nat)
    (hc : consistent_partition n parts d) (hd : ∀ p, p < n → d < (parts p).tdim) :
    (∀ g, (∃ p, p < n ∧ g ∈ (parts p).global_indices d) ↔
        (∃ p, p < n ∧ keeps parts d p g))
      ∧ (∀ g p q, p < n → q < n → keeps parts d p g → keeps parts d q g → p = q)
      ∧ (∀ p, compute_nonlocal_entities (parts p) (parts p).tdim = ∅) := by
  refine ⟨?_, ?_, ?_⟩
  · intro g
    constructor
    · intro hex
      refine ⟨Nat.find hex, (Nat.find_spec hex).1, ?_⟩
      apply lowest_holder_keeps n parts d hc hd g _ (Nat.find_spec hex).1 (Nat.find_spec hex).2
      intro q hq hmem
      exact Nat.find_min hex hq ⟨Nat.lt_trans hq (Nat.find_spec hex).1, hmem⟩
    · rintro ⟨p, hp, hk⟩
      exact ⟨p, hp, keeps_mem parts d p g hk⟩
  · intro g p q hp hq hkp hkq
    rcases Nat.lt_trichotomy p q with h | h | h
    · exact absurd hkq
        (not_keeps_of_lower_holder n parts d hc hd g p q hp hq h (keeps_mem parts d p g hkp))
    · exact h
    · exact absurd hkp
        (not_keeps_of_lower_holder n parts d hc hd g q p hq hp h (keeps_mem parts d q g hkq))
  · intro p
    exact compute_nonlocal_entities_cells (parts p)

/-- Witness of C9: the vertices of the two-process example partition. -/
theorem C9_ownership_partition_witness :
    consistent_partition 2 example_partition 0
      ∧ (∀ p, p < 2 → 0 < (example_partition p).tdim)
      ∧ (∀ g p q, p < 2 → q < 2 → keeps example_partition 0 p g →
          keeps example_partition 0 q g → p = q) :=
  ⟨by decide, by decide,
   (C9_ownership_partition 2 example_partition 0 (by decide) (by decide)).2.1⟩

/-- C10: `get_padded_width` is `u.value_size()` except for 2-D vector and 2-D
tensor values, where it is the width of the 3-D value (3 and 9).  The value
array of a 2-D vector field over `n` points therefore has `3 * n` entries,
rows of three with the two original components first and a zero third
component at every point, and dropping the third component gives back the
original 2-D vectors. -/
theorem C10_padded_width {α : Type} [Zero α] (u : Function α) :
    (u.value_rank = 1 ∧ u.value_size = 2 → get_padded_width u = 3)
      ∧ (u.value_rank = 2 ∧ u.value_size = 4 → get_padded_width u = 9)
      ∧ (¬ (u.value_rank = 1 ∧ u.value_size = 2) → ¬ (u.value_rank = 2 ∧ u.value_size = 4) →
          get_padded_width u = u.value_size)
      ∧ (u.value_rank = 1 → u.value_size = 2 →
          (∀ v, v ∈ u.values → v.length = u.value_size) →
          (get_point_data_values u).length = 3 * u.values.length
          ∧ (∀ i, i < u.values.length → (get_point_data_values u)[3 * i + 2]? = some 0)
          ∧ (∀ i, i < u.values.length → ∀ c, c < 2 →
              (get_point_data_values u)[3 * i + c]? = (u.values.getD i [])[c]?)
          ∧ drop_padding u.value_size (get_padded_width u) (get_point_data_values u)
              = u.values) := by
  refine ⟨?_, ?_, ?_, ?_⟩
  · rintro ⟨hr, hs⟩
    exact get_padded_width_vector u hr hs
  · rintro ⟨hr, hs⟩
    simp [get_padded_width, hr, hs]
  · intro h1 h2
    simp [get_padded_width, h1, h2]
  · intro hr hs hv
    have hv2 : ∀ v, v ∈ u.values → v.length = 2 := fun v hm => by rw [hv v hm, hs]
    have hw := get_padded_width_vector u hr hs
    unfold get_point_data_values
    rw [hw, hs]
    exact ⟨padded_length u.values hv2, padded_third_zero u.values hv2,
      padded_component u.values hv2, drop_padding_padded u.values hv2⟩

/-- Witness of C10: the 2-D vector field with values (1, 2) and (3, 4). -/
theorem C10_padded_width_witness :
    (example_vector_field.value_rank = 1 ∧ example_vector_field.value_size = 2)
      ∧ get_padded_width example_vector_field = 3
      ∧ (∀ v, v ∈ example_vector_field.values → v.length = example_vector_field.value_size)
      ∧ drop_padding example_vector_field.value_size (get_padded_width example_vector_field)
          (get_point_data_values example_vector_field) = example_vector_field.values :=
  ⟨by decide, (C10_padded_width example_vector_field).1 (by decide), by decide,
   ((C10_padded_width example_vector_field).2.2.2 (by decide) (by decide)
      (by decide)).2.2.2⟩

/-- C11: `close()` is idempotent and a no-op without a store.  Closing twice
leaves the same state as closing once; when no HDF5 store is open the whole
state is unchanged; in every state the XML document, the write counter and
the file name are kept and no store is open afterwards. -/
theorem C11_close_idempotent {Comm Doc Store : Type} (file : XDMFFile Comm Doc Store) :
    close (close file) = close file
      ∧ (file._hdf5_file = none → close file = file)
      ∧ (close file)._xml_doc = file._xml_doc
      ∧ (close file)._counter = file._counter
      ∧ (close file)._filename = file._filename
      ∧ (close file)._hdf5_file = none := by
  refine ⟨rfl, ?_, rfl, rfl, rfl, rfl⟩
  intro h
  cases file
  simp only [close] at h ⊢
  simp only [h]

/-- Witness of C11: closing the example file, which has no store open. -/
theorem C11_close_idempotent_witness :
    example_file._hdf5_file = none ∧ close example_file = example_file :=
  ⟨rfl, (C11_close_idempotent example_file).2.1 rfl⟩

/-- C13: the bool specialisation of `add_data_item` changes nothing but the
element type.  Its result is that of one call of the general integer
`add_data_item` on the 0/1 array with the communicator, node, handle, path,
shape and number type it received; with a general function that records its
calls, exactly one call with these arguments is recorded. -/
theorem C13_bool_delegates_once {Comm Node Res : Type}
    (general : Comm → Node → Int → String → Array Int → List Int → String → Res)
    (comm : Comm) (xml_node : Node) (h5_id : Int) (h5_path : String)
    (x : Array Bool) (shape : List Int) (number_type : String) :
    add_data_item_bool general comm xml_node h5_id h5_path x shape number_type
        = general comm xml_node h5_id h5_path (x.map bool_to_int) shape number_type
      ∧ add_data_item_bool record_call comm xml_node h5_id h5_path x shape number_type
        = [GeneralCall.mk comm xml_node h5_id h5_path (x.map bool_to_int) shape number_type]
      ∧ (add_data_item_bool record_call comm xml_node h5_id h5_path x shape
          number_type).length = 1 := by
  unfold add_data_item_bool
  rw [bool_x_int_eq_map]
  exact ⟨rfl, rfl, rfl⟩

/-- C14: the copy loop of the bool specialisation is safe and terminates.  It
performs exactly `x.size()` iterations, at the indices `0, 1, ..., x.size() - 1`
in this order; at every access the index is below `x.size()`, which is the
size of `x_int`; and the loop with checked accesses returns its result. -/
theorem C14_copy_loop_safe (x : Array Bool) :
    (bool_x_int_accesses x).length = x.size
      ∧ (bool_x_int_accesses x).map Prod.fst = List.range x.size
      ∧ (∀ a, a ∈ bool_x_int_accesses x → a.1 < x.size ∧ a.2 = x.size)
      ∧ copy_loop_checked x 0 (mkArray x.size 0) = some (bool_x_int x) := by
  have h : bool_x_int_accesses x = (List.range x.size).map (fun j => (j, x.size)) := by
    unfold bool_x_int_accesses
    rw [copy_loop_accesses_eq x 0 _ (by simp), List.range_eq_range']
    simp
  refine ⟨?_, ?_, ?_, ?_⟩
  · rw [h]
    simp
  · rw [h]
    simp [Function.comp_def]
  · intro a ha
    rw [h] at ha
    simp only [List.mem_map, List.mem_range] at ha
    obtain ⟨j, hj, rfl⟩ := ha
    exact ⟨hj, rfl⟩
  · unfold bool_x_int
    exact copy_loop_checked_eq x 0 _ (by simp)

/-- Witness of C14: the second access of the loop on `[true, false, true]`. -/
theorem C14_copy_loop_safe_witness :
    ((1, 3) : Nat × Nat) ∈ bool_x_int_accesses #[true, false, true]
      ∧ (1 : Nat) < (#[true, false, true] : Array Bool).size :=
  ⟨by simp [bool_x_int_accesses, copy_loop_accesses],
   ((C14_copy_loop_safe #[true, false, true]).2.2.1 (1, 3)
      (by simp [bool_x_int_accesses, copy_loop_accesses])).1⟩

/-- C15: `xdmf_format_str` is injective: equal format strings come from equal
encodings, so different encodings give different format strings. -/
theorem C15_xdmf_format_str_injective (e1 e2 : Encoding) :
    (xdmf_format_str e1 = xdmf_format_str e2 → e1 = e2)
      ∧ (e1 ≠ e2 → xdmf_format_str e1 ≠ xdmf_format_str e2) := by
  cases e1 <;> cases e2 <;> simp [xdmf_format_str]

/-- Witness of C15 on the two encodings. -/
theorem C15_xdmf_format_str_injective_witness :
    (xdmf_format_str Encoding.HDF5 = xdmf_format_str Encoding.HDF5
        ∧ Encoding.HDF5 = Encoding.HDF5)
      ∧ (Encoding.HDF5 ≠ Encoding.ASCII
        ∧ xdmf_format_str Encoding.HDF5 ≠ xdmf_format_str Encoding.ASCII) :=
  ⟨⟨rfl, (C15_xdmf_format_str_injective Encoding.HDF5 Encoding.HDF5).1 rfl⟩,
   ⟨by decide, (C15_xdmf_format_str_injective Encoding.HDF5 Encoding.ASCII).2 (by decide)⟩⟩

/-- C16: for every file name, `XDMFFile(filename)` gives the state of
`XDMFFile(MPI_COMM_WORLD, filename)`: whatever the two-argument constructor
does, it is called with the world communicator and the file name unchanged. -/
theorem C16_constructor_delegates {Comm State : Type} (construct : Comm → String → State)
    (MPI_COMM_WORLD : Comm) (filename : String) :
    construct_filename construct MPI_COMM_WORLD filename = construct MPI_COMM_WORLD filename
      ∧ construct_filename (fun c f => (c, f)) MPI_COMM_WORLD filename
          = (MPI_COMM_WORLD, filename) :=
  ⟨rfl, rfl⟩

/-- C17: the four MeTiS status codes have the values 1, -2, -3 and -4, which
are pairwise distinct; a status is `METIS_OK` exactly when its value is
positive, and is an error code exactly when its value is negative. -/
theorem C17_metis_status_sign (s : metis.rstatus_et) :
    metis.rstatus_et.METIS_OK.value = 1
      ∧ metis.rstatus_et.METIS_ERROR_INPUT.value = -2
      ∧ metis.rstatus_et.METIS_ERROR_MEMORY.value = -3
      ∧ metis.rstatus_et.METIS_ERROR.value = -4
      ∧ (∀ t : metis.rstatus_et, s.value = t.value ↔ s = t)
      ∧ (s = metis.rstatus_et.METIS_OK ↔ 0 < s.value)
      ∧ (s ≠ metis.rstatus_et.METIS_OK ↔ s.value < 0) := by
  refine ⟨rfl, rfl, rfl, rfl, ?_, ?_, ?_⟩
  · intro t
    cases s <;> cases t <;> simp [metis.rstatus_et.value]
  · cases s <;> simp [metis.rstatus_et.value]
  · cases s <;> simp [metis.rstatus_et.value]
